import Mathlib

/-!
Shallow embedding of the news-investor time-series cache-and-fetch engine
(backend/python): the coverage evaluator and prices handler
(handlers/stocks.py), the batch coordinator (handlers/batch.py), the
TTL policy and cache repository (repositories/stocks_cache.py), and the
yfinance-to-Tiingo normalization (utils/transform.py).

Machine floats of the source are modelled as rationals (ℚ); Python ints
as ℤ/ℕ.  Python `int(x)` on a float is truncation toward zero; Python
`round(x, 4)` is rounding half-to-even at four decimal places.
-/

namespace NewsInvestor

/-- Truncation toward zero of a rational, as Python `int(x)` applied to a
float value. -/
def ratTrunc (q : ℚ) : ℤ := if q < 0 then -⌊-q⌋ else ⌊q⌋

/-- Round a rational to the nearest integer, ties to even, as Python
`round(x)`. -/
def roundHalfEven (q : ℚ) : ℤ :=
  let f := ⌊q⌋
  let r := q - (f : ℚ)
  if r < 1/2 then f
  else if r > 1/2 then f + 1
  else if f % 2 = 0 then f else f + 1

/-- Round to four decimal places, as Python `round(x, 4)` in
utils/transform.py. -/
def roundTo4 (q : ℚ) : ℚ := (roundHalfEven (q * 10000) : ℚ) / 10000

/-- Expected trading days for a calendar-day span:
`max(1, int(calendar_days * 5 / 7))` from handlers/stocks.py lines 45-46.
Python `int()` truncates toward zero, hence `Int.tdiv`. -/
def expectedTradingDays (calendar_days : ℤ) : ℤ :=
  max 1 (Int.tdiv (calendar_days * 5) 7)

/-- Cache hit rate `len(cached_data) / expected_trading_days if
expected_trading_days > 0 else 0` from handlers/stocks.py lines 48-50. -/
def cacheHitRateOf (actualCount : ℕ) (expected : ℤ) : ℚ :=
  if 0 < expected then (actualCount : ℚ) / (expected : ℚ) else 0

/-- TTL for historical data (seconds): `90 * 24 * 60 * 60` from
repositories/stocks_cache.py line 35. -/
def TTL_HISTORICAL : ℤ := 90 * 24 * 60 * 60

/-- TTL for current data (seconds): `1 * 24 * 60 * 60` from
repositories/stocks_cache.py line 36. -/
def TTL_CURRENT : ℤ := 1 * 24 * 60 * 60

/-- The current instant, as stocks_cache.py observes it: `datetime.now()`
measured in days (rational, so a time of day is representable) and
`time.time()` in Unix seconds. -/
structure Clock where
  nowDays : ℚ
  epochSec : ℤ

/-- TTL calculation from repositories/stocks_cache.py lines 57-84.
`parse` stands for `datetime.strptime(date_str, "%Y-%m-%d")`: it yields the
date as a day number, or none when parsing raises ValueError.
`(now - data_date).days` floors the exact difference, hence the ⌊⌋. -/
def calculate_ttl (parse : String → Option ℤ) (clock : Clock)
    (date_str : String) : ℤ :=
  match parse date_str with
  | some d =>
      let age_days : ℤ := ⌊clock.nowDays - (d : ℚ)⌋
      if age_days > 7 then clock.epochSec + TTL_HISTORICAL
      else clock.epochSec + TTL_CURRENT
  | none => clock.epochSec + TTL_CURRENT

/-- One raw yfinance history row as utils/transform.py reads it: every
column is accessed through `row.get(col, default)`, so each is optional.
`dateIdx` stands for the DatetimeIndex entry. -/
structure RawRow where
  dateIdx : ℤ
  openV : Option ℚ
  highV : Option ℚ
  lowV : Option ℚ
  closeV : Option ℚ
  volumeV : Option ℚ
  dividendsV : Option ℚ
  stockSplitsV : Option ℚ
  adjCloseV : Option ℚ
deriving DecidableEq

/-- The twelve numeric price fields of a Tiingo-format record, also the
`priceData` attribute map cached in DynamoDB (handlers/stocks.py
lines 93-106). -/
structure PriceData where
  openP : ℚ
  high : ℚ
  low : ℚ
  close : ℚ
  volume : ℤ
  adjOpen : ℚ
  adjHigh : ℚ
  adjLow : ℚ
  adjClose : ℚ
  adjVolume : ℤ
  divCash : ℚ
  splitFactor : ℚ
deriving DecidableEq

/-- A normalized price record: a date plus the twelve price fields. -/
structure PriceRecord where
  date : ℤ
  priceData : PriceData
deriving DecidableEq

/-- The adjustment ratio `adj_close / close if close != 0 else 1.0` from
utils/transform.py line 34, with the `.get` defaults of lines 32-33. -/
def adjRatioOf (row : RawRow) : ℚ :=
  let close := row.closeV.getD 0
  let adj_close := row.adjCloseV.getD close
  if close ≠ 0 then adj_close / close else 1

/-- The loop body of `transform_history_to_tiingo`
(utils/transform.py lines 27-64): one raw row to one Tiingo record. -/
def transformRow (row : RawRow) : PriceRecord :=
  let adj_ratio := adjRatioOf row
  let open_price := row.openV.getD 0
  let high_price := row.highV.getD 0
  let low_price := row.lowV.getD 0
  let close_price := row.closeV.getD 0
  let adj_close := row.adjCloseV.getD close_price
  let volume := ratTrunc (row.volumeV.getD 0)
  { date := row.dateIdx
    priceData :=
      { openP := roundTo4 open_price
        high := roundTo4 high_price
        low := roundTo4 low_price
        close := roundTo4 close_price
        volume := volume
        adjOpen := roundTo4 (open_price * adj_ratio)
        adjHigh := roundTo4 (high_price * adj_ratio)
        adjLow := roundTo4 (low_price * adj_ratio)
        adjClose := roundTo4 adj_close
        adjVolume := volume
        divCash := roundTo4 (row.dividendsV.getD 0)
        splitFactor :=
          let r := roundTo4 (row.stockSplitsV.getD 0)
          if r = 0 then 1 else r } }

/-- `transform_history_to_tiingo` (utils/transform.py lines 9-66): the
empty-frame guard returns [], otherwise every row is transformed in
order. -/
def transform_history_to_tiingo (rows : List RawRow) : List PriceRecord :=
  rows.map transformRow

/-- The spec's worked example row: close=100, adjClose=95, open=50. -/
def exampleRow : RawRow :=
  { dateIdx := 0, openV := some 50, highV := some 60, lowV := some 40,
    closeV := some 100, volumeV := some 1000, dividendsV := none,
    stockSplitsV := none, adjCloseV := some 95 }

example : (transformRow exampleRow).priceData.adjOpen = 95/2 := by
  norm_num [transformRow, adjRatioOf, exampleRow, roundTo4, roundHalfEven]

example : (transformRow exampleRow).priceData.splitFactor = 1 := by
  norm_num [transformRow, adjRatioOf, exampleRow, roundTo4, roundHalfEven]

/-- A cached DynamoDB item as `query_stocks_by_date_range` returns it:
a date sort key plus the stored price fields. The date key is the day
number of the YYYY-MM-DD string (the string order and the day order
agree). -/
structure CachedItem where
  dateKey : ℤ
  priceData : PriceData
deriving DecidableEq

/-- Insert into a list sorted by dateKey (ascending). -/
def insertByDate (x : CachedItem) : List CachedItem → List CachedItem
  | [] => [x]
  | y :: ys =>
      if x.dateKey ≤ y.dateKey then x :: y :: ys else y :: insertByDate x ys

/-- Ascending sort by dateKey, as `sorted(cached_data, key=lambda x:
x["date"])` in handlers/stocks.py line 58. -/
def sortByDate : List CachedItem → List CachedItem
  | [] => []
  | x :: xs => insertByDate x (sortByDate xs)

/-- The cached branch of handlers/stocks.py lines 56-66: sort the cached
items by date and rebuild Tiingo-format records from the stored price
fields (the Decimal-to-float coercion is the identity in the rational
model). -/
def cachedToTiingo (items : List CachedItem) : List PriceRecord :=
  (sortByDate items).map (fun it => { date := it.dateKey, priceData := it.priceData })

/-- `APIError` from utils/error.py: a message and an HTTP status code. -/
structure APIError where
  message : String
  status_code : ℤ
deriving DecidableEq

/-- The effectful collaborators of one `handle_prices_request` call:
the DynamoDB range query (a StoreError is any non-APIError exception,
carried as its message string), the yfinance fetch (raises only
classified `APIError`s per services/yfinance_service.py), and the
DynamoDB batch write. -/
structure PricesEnv where
  queryResult : Except String (List CachedItem)
  fetchResult : Except APIError (List RawRow)
  writeResult : Except String Unit

/-- What one `handle_prices_request` call produces: the returned dict
(`data`, `cached`, `cacheHitRate`, handlers/stocks.py lines 68-72 and
114-118 and 126) plus the write-back side effects, which the caller never
sees: the records handed to `batch_put_stocks` (lines 84-109, only when
`data` is nonempty) and whether that write raised (swallowed and logged
at lines 111-112). -/
structure PricesResult where
  data : List PriceRecord
  cached : Bool
  cacheHitRate : ℚ
  wroteItems : Option (List PriceRecord)
  writeFailed : Bool

/-- The dict `handle_prices_request` actually returns to its caller. -/
def responseView (r : PricesResult) : List PriceRecord × Bool × ℚ :=
  (r.data, r.cached, r.cacheHitRate)

/-- `handle_prices_request` (handlers/stocks.py lines 20-126) over integer
day numbers (post-strptime dates). Control flow: the outer try covers the
cache query and coverage test; a sufficient rate serves sorted cached
data; otherwise fetch, transform, and best-effort cache write (inner
try/except swallows write errors). `except APIError: raise` re-raises a
fetch APIError; any other exception (a store read error) falls back to a
plain fetch with cacheHitRate 0. -/
def handle_prices_request (env : PricesEnv) (startDay endDay : ℤ) :
    Except APIError PricesResult :=
  match env.queryResult with
  | Except.ok cached_data =>
      let calendar_days : ℤ := (endDay - startDay) + 1
      let expected_trading_days := expectedTradingDays calendar_days
      let cache_hit_rate := cacheHitRateOf cached_data.length expected_trading_days
      if cache_hit_rate > 4/5 ∧ cached_data ≠ [] then
        Except.ok { data := cachedToTiingo cached_data, cached := true,
                    cacheHitRate := cache_hit_rate, wroteItems := none,
                    writeFailed := false }
      else
        match env.fetchResult with
        | Except.ok rows =>
            let data := transform_history_to_tiingo rows
            Except.ok { data := data, cached := false,
                        cacheHitRate := cache_hit_rate,
                        wroteItems := if data ≠ [] then some data else none,
                        writeFailed :=
                          if data ≠ [] then
                            match env.writeResult with
                            | Except.ok _ => false
                            | Except.error _ => true
                          else false }
        | Except.error e => Except.error e
  | Except.error _ =>
      match env.fetchResult with
      | Except.ok rows =>
          Except.ok { data := transform_history_to_tiingo rows, cached := false,
                      cacheHitRate := 0, wroteItems := none, writeFailed := false }
      | Except.error e => Except.error e

/-- One character of the ticker character class `[A-Z0-9.\-]` from
utils/validation.py line 6. -/
def tickerChar (c : Char) : Bool :=
  (decide (Char.ofNat 65 ≤ c) && decide (c ≤ Char.ofNat 90)) ||
    c.isDigit || c = Char.ofNat 46 || c = Char.ofNat 45

/-- The body of `TICKER_PATTERN`: one or more ticker-class characters. -/
def tickerCore (cs : List Char) : Bool := !cs.isEmpty && cs.all tickerChar

/-- The body of `DATE_PATTERN` from utils/validation.py line 7:
four digits, a hyphen, two digits, a hyphen, two digits. -/
def dateCore (cs : List Char) : Bool :=
  match cs with
  | [y1, y2, y3, y4, h1, m1, m2, h2, d1, d2] =>
      y1.isDigit && y2.isDigit && y3.isDigit && y4.isDigit &&
        h1 = Char.ofNat 45 && m1.isDigit && m2.isDigit && h2 = Char.ofNat 45 &&
        d1.isDigit && d2.isDigit
  | _ => false

/-- Python `re.match` on a `^...$` pattern: the whole string matches, or
everything up to a single trailing newline does (`$` also matches just
before a final newline). -/
def pyAnchoredMatch (core : List Char → Bool) (s : String) : Bool :=
  core s.data || (s.data.getLast? = some (Char.ofNat 10) && core s.data.dropLast)

/-- `TICKER_PATTERN.match(s)` as a boolean. -/
def pyMatchTicker (s : String) : Bool := pyAnchoredMatch tickerCore s

/-- `DATE_PATTERN.match(s)` as a boolean. -/
def pyMatchDate (s : String) : Bool := pyAnchoredMatch dateCore s

/-- `MAX_TICKERS = 10` from handlers/batch.py line 21. -/
def MAX_TICKERS : ℕ := 10

/-- The per-ticker loop of handlers/batch.py lines 85-96: uppercase each
ticker, reject the first one whose normalized form misses
`TICKER_PATTERN`, collect the normalized list otherwise. -/
def validateTickers : List String → Except String (List String)
  | [] => Except.ok []
  | t :: ts =>
      let u := t.toUpper
      if pyMatchTicker u then
        match validateTickers ts with
        | Except.ok rest => Except.ok (u :: rest)
        | Except.error m => Except.error m
      else Except.error ("Invalid ticker format: " ++ u ++
        ". Must contain only letters, numbers, dots, and hyphens.")

/-- Lexicographic order on code points, as Python compares strings. It
agrees with Lean's String order but is structurally recursive. -/
def strLtChars : List Char → List Char → Bool
  | [], [] => false
  | [], _ :: _ => true
  | _ :: _, [] => false
  | a :: as, b :: bs => if a < b then true else if b < a then false else strLtChars as bs

/-- The date checks of handlers/batch.py lines 98-112: startDate required
and truthy, both dates must match DATE_PATTERN (endDate only when truthy),
and the range check is the lexicographic string comparison
`start_date > end_date`. -/
def validateDates (startDate endDate : Option String) : Except String Unit :=
  match startDate with
  | none => Except.error "Missing required field: startDate"
  | some sd =>
      if sd.isEmpty then Except.error "Missing required field: startDate"
      else if !pyMatchDate sd then
        Except.error "Invalid startDate format. Must be YYYY-MM-DD."
      else
        match endDate with
        | none => Except.ok ()
        | some ed =>
            if ed.isEmpty then Except.ok ()
            else if !pyMatchDate ed then
              Except.error "Invalid endDate format. Must be YYYY-MM-DD."
            else if strLtChars ed.data sd.data then
              Except.error "Invalid date range. startDate must be before or equal to endDate."
            else Except.ok ()

/-- The parsed body of a POST /batch/stocks request (tickers already
known to be a list of strings; absent or null fields are `none`). -/
structure BatchBody where
  tickers : List String
  startDate : Option String
  endDate : Option String

/-- The structural validation of handlers/batch.py lines 71-112, in
source order: empty tickers, ticker count over the limit, per-ticker
syntax, then the date checks. Returns the normalized tickers. -/
def validateBatch (body : BatchBody) : Except String (List String) :=
  if body.tickers.isEmpty then Except.error "Missing required field: tickers"
  else if body.tickers.length > MAX_TICKERS then
    Except.error "Too many tickers. Maximum is 10."
  else
    match validateTickers body.tickers with
    | Except.error m => Except.error m
    | Except.ok normalized =>
        match validateDates body.startDate body.endDate with
        | Except.error m => Except.error m
        | Except.ok _ => Except.ok normalized

/-- The outcome of `fetch_ticker` (handlers/batch.py lines 123-132) for
one ticker: data plus cached flag, or an error message (an APIError's
message, or `str(e)` for any other exception). -/
inductive FetchOutcome where
  | ok (data : List PriceRecord) (cached : Bool)
  | err (message : String)

/-- `fetch_ticker` wired to the single-symbol pipeline: the inner
try/except turns an APIError into its message. -/
def fetch_ticker (envOf : String → PricesEnv) (startDay endDay : ℤ)
    (t : String) : FetchOutcome :=
  match handle_prices_request (envOf t) startDay endDay with
  | Except.ok r => FetchOutcome.ok r.data r.cached
  | Except.error e => FetchOutcome.err e.message

/-- The three aggregation dicts of handlers/batch.py lines 119-121. -/
structure BatchAgg where
  results : List (String × List PriceRecord)
  errors : List (String × String)
  cachedFlags : List (String × Bool)

/-- Python dict assignment `m[k] = v`: update the existing entry in
place, else append. -/
def dictInsert {α : Type} (m : List (String × α)) (k : String) (v : α) :
    List (String × α) :=
  if m.any (fun p => p.1 = k) then
    m.map (fun p => if p.1 = k then (k, v) else p)
  else m ++ [(k, v)]

/-- The collection loop of handlers/batch.py lines 139-145. Each ticker's
outcome is `f t`; completion order only permutes dict insertion order and
never the per-key contents, so the list order of `tickers` stands in for
`as_completed`. -/
def buildBatch (f : String → FetchOutcome) (tickers : List String) : BatchAgg :=
  tickers.foldl
    (fun acc t =>
      match f t with
      | FetchOutcome.ok data c =>
          { acc with results := dictInsert acc.results t data,
                     cachedFlags := dictInsert acc.cachedFlags t c }
      | FetchOutcome.err m => { acc with errors := dictInsert acc.errors t m })
    ⟨[], [], []⟩

/-- The HTTP-level result of `handle_batch_stocks_request`: a 400
validation error, or a 200 response carrying the aggregation maps and
`successCount`/`errorCount` (handlers/batch.py lines 147-165). -/
inductive BatchHTTP where
  | errorResp (message : String) (status : ℕ)
  | okResp (agg : BatchAgg) (successCount errorCount : ℕ)

/-- `handle_batch_stocks_request` (handlers/batch.py lines 31-169):
validation first, then the per-ticker fan-out, then the aggregate
response with counts equal to the dict sizes. -/
def handle_batch_stocks_request (f : String → FetchOutcome)
    (body : BatchBody) : BatchHTTP :=
  match validateBatch body with
  | Except.error m => BatchHTTP.errorResp m 400
  | Except.ok normalized =>
      let agg := buildBatch f normalized
      BatchHTTP.okResp agg agg.results.length agg.errors.length

/-- One physical record of the stocks cache table, as put_stock builds it
(repositories/stocks_cache.py lines 116-122). -/
structure StoreItem where
  ticker : String
  date : String
  priceData : PriceData
  ttl : ℤ
  fetchedAt : ℤ
deriving DecidableEq

/-- The caller-supplied item for put_stock / batch_put_stocks: ticker,
date and priceData (handlers/stocks.py lines 89-108). -/
structure CachePutItem where
  ticker : String
  date : String
  priceData : PriceData
deriving DecidableEq

/-- Modelled from the spec: the Record Store itself (DynamoDB) is an
external collaborator, not code under the repository's backend; spec §4.1
gives `batchWrite(records): upserts` and §3 the invariant that writes
overwrite by the (symbol, date) composite key. A put therefore replaces
any record with the same key. The store is a list so that duplicate keys
are representable and key-uniqueness is a real statement. -/
def storePut (store : List StoreItem) (it : StoreItem) : List StoreItem :=
  it :: store.filter (fun s => !(s.ticker = it.ticker && s.date = it.date))

/-- The cache item `put_stock` writes (repositories/stocks_cache.py lines
107-129): uppercased ticker, the given date, the price fields, a TTL
recomputed from the date at write time, and the write instant in
milliseconds. -/
def buildCacheItem (parse : String → Option ℤ) (clock : Clock)
    (item : CachePutItem) : StoreItem :=
  { ticker := item.ticker.toUpper, date := item.date,
    priceData := item.priceData,
    ttl := calculate_ttl parse clock item.date,
    fetchedAt := clock.epochSec * 1000 }

/-- `put_stock` (repositories/stocks_cache.py lines 107-129). -/
def put_stock (parse : String → Option ℤ) (clock : Clock)
    (store : List StoreItem) (item : CachePutItem) : List StoreItem :=
  storePut store (buildCacheItem parse clock item)

/-- `batch_put_stocks` (repositories/stocks_cache.py lines 168-204):
every item gets the same treatment as a single put; the 25-item chunking
only groups the physical writes. -/
def batch_put_stocks (parse : String → Option ℤ) (clock : Clock)
    (store : List StoreItem) (items : List CachePutItem) : List StoreItem :=
  items.foldl (fun s item => storePut s (buildCacheItem parse clock item)) store

/-- How many stored records carry the composite key (t, d). -/
def keyCount (store : List StoreItem) (t d : String) : ℕ :=
  (store.filter (fun s => s.ticker = t && s.date = d)).length

example : pyMatchTicker "AAPL" = true := by decide
example : pyMatchTicker "aapl" = false := by decide
example : pyMatchTicker "" = false := by decide
example : pyMatchDate "2024-01-15" = true := by decide
example : pyMatchDate "2024-1-15" = false := by decide
example : strLtChars "2024-01-31".data "2024-02-01".data = true := by decide

example : expectedTradingDays 5 = 3 := by decide
example : expectedTradingDays 1 = 1 := by decide
example : expectedTradingDays 7 = 5 := by decide
example : ratTrunc (-10/7) = -1 := by norm_num [ratTrunc]
example : roundTo4 (95/2) = 95/2 := by norm_num [roundTo4, roundHalfEven]
example : roundHalfEven (5/2) = 2 := by norm_num [roundHalfEven]
example : roundHalfEven (7/2) = 4 := by norm_num [roundHalfEven]

/-- The record the miss path of handle_prices_request returns
(handlers/stocks.py lines 80-118). -/
def missResult (env : PricesEnv) (rate : ℚ) (rows : List RawRow) : PricesResult :=
  { data := transform_history_to_tiingo rows, cached := false, cacheHitRate := rate,
    wroteItems :=
      if transform_history_to_tiingo rows ≠ [] then
        some (transform_history_to_tiingo rows)
      else none,
    writeFailed :=
      if transform_history_to_tiingo rows ≠ [] then
        match env.writeResult with
        | Except.ok _ => false
        | Except.error _ => true
      else false }

/-- A concrete strptime stub: "2024-01-01" is day 0; everything else
fails to parse. -/
def parseStub : String → Option ℤ :=
  fun s => if s = "2024-01-01" then some 0 else none

/-- All-zero price fields, for concrete cache items. -/
def pd0 : PriceData := ⟨0, 0, 0, 0, 0, 0, 0, 0, 0, 0, 0, 0⟩

/-- Five cached records on days 0..4. -/
def items5 : List CachedItem := [⟨0, pd0⟩, ⟨1, pd0⟩, ⟨2, pd0⟩, ⟨3, pd0⟩, ⟨4, pd0⟩]

/-- An environment whose cache holds all five records of the range
[0, 4]; the fetch is unreachable. -/
def envHit : PricesEnv :=
  { queryResult := Except.ok items5,
    fetchResult := Except.error ⟨"not used", 500⟩,
    writeResult := Except.ok () }

/-- An environment with an empty cache and a one-row fetch. -/
def envMiss : PricesEnv :=
  { queryResult := Except.ok [], fetchResult := Except.ok [exampleRow],
    writeResult := Except.ok () }

/-- An environment whose cache read raises a StoreError. -/
def envReadErr : PricesEnv :=
  { queryResult := Except.error "store down",
    fetchResult := Except.ok [exampleRow],
    writeResult := Except.ok () }

/-- A concrete per-ticker outcome function: GOOGL fails, every other
symbol succeeds with an empty series. -/
def fStub : String → FetchOutcome := fun s =>
  if s = "GOOGL" then FetchOutcome.err "not found"
  else FetchOutcome.ok [] false

/-- A batch body with 11 well-formed tickers. -/
def body11 : BatchBody :=
  { tickers := ["A1", "A2", "A3", "A4", "A5", "A6", "A7", "A8", "A9", "B1", "B2"],
    startDate := some "2024-01-01", endDate := none }

lemma expectedTradingDays_pos (d : ℤ) : 0 < expectedTradingDays d :=
  lt_of_lt_of_le zero_lt_one (le_max_left _ _)

lemma expectedTradingDays_eq_floor {d : ℤ} (h : 0 ≤ d) :
    expectedTradingDays d = max 1 ⌊((d : ℚ) * 5) / 7⌋ := by
  unfold expectedTradingDays
  rw [Int.tdiv_eq_ediv (by omega) (by norm_num)]
  congr 1
  rw [show ((d : ℚ) * 5) = ((d * 5 : ℤ) : ℚ) by push_cast; ring,
      show (7 : ℚ) = ((7 : ℕ) : ℚ) by norm_num,
      Rat.floor_intCast_div_natCast]
  norm_num

lemma expectedTradingDays_mono {d1 d2 : ℤ} (h0 : 1 ≤ d1) (h : d1 ≤ d2) :
    expectedTradingDays d1 ≤ expectedTradingDays d2 := by
  unfold expectedTradingDays
  rw [Int.tdiv_eq_ediv (by omega) (by norm_num),
      Int.tdiv_eq_ediv (by omega) (by norm_num)]
  exact max_le_max le_rfl (Int.ediv_le_ediv (by norm_num) (by omega))

/-- C9: for a valid range, expectedCount is max(1, floor(days * 5/7)) with
days = (end - start) + 1, and it is monotonically non-decreasing when the
range widens on either side (same start and later end, or earlier start
and same end). -/
theorem expected_count_monotone (s e e2 s2 : ℤ) (hse : s ≤ e) :
    expectedTradingDays ((e - s) + 1) =
      max 1 ⌊((((e - s) + 1 : ℤ) : ℚ) * 5) / 7⌋ ∧
    (e ≤ e2 →
      expectedTradingDays ((e - s) + 1) ≤ expectedTradingDays ((e2 - s) + 1)) ∧
    (s2 ≤ s →
      expectedTradingDays ((e - s) + 1) ≤ expectedTradingDays ((e - s2) + 1)) := by
  refine ⟨expectedTradingDays_eq_floor (by omega), fun h => ?_, fun h => ?_⟩
  · exact expectedTradingDays_mono (by omega) (by omega)
  · exact expectedTradingDays_mono (by omega) (by omega)

/-- Witness for C9 at the ranges [0,4] ⊆ [0,6] and [0,4] ⊆ [-2,4]. -/
theorem expected_count_monotone_witness :
    expectedTradingDays ((4 - 0) + 1) ≤ expectedTradingDays ((6 - 0) + 1) ∧
    expectedTradingDays ((4 - 0) + 1) ≤ expectedTradingDays ((4 - (-2)) + 1) :=
  ⟨(expected_count_monotone 0 4 6 (-2) (by norm_num)).2.1 (by norm_num),
   (expected_count_monotone 0 4 6 (-2) (by norm_num)).2.2 (by norm_num)⟩

/-- C2: the TTL function gives the 90-day horizon when the parsed date is
more than 7 (whole calendar) days old, the 1-day horizon at age 7 or
fewer days (exactly 7 falls in the short tier), and the 1-day horizon
when the date string does not parse; the result is always now (epoch
seconds) plus the chosen horizon. -/
theorem ttl_tier_assignment (parse : String → Option ℤ) (clock : Clock)
    (ds : String) (d : ℤ) (hp : parse ds = some d) :
    TTL_HISTORICAL = 90 * 86400 ∧ TTL_CURRENT = 1 * 86400 ∧
    (7 < ⌊clock.nowDays - (d : ℚ)⌋ →
      calculate_ttl parse clock ds = clock.epochSec + TTL_HISTORICAL) ∧
    (⌊clock.nowDays - (d : ℚ)⌋ ≤ 7 →
      calculate_ttl parse clock ds = clock.epochSec + TTL_CURRENT) ∧
    (∀ ds2, parse ds2 = none →
      calculate_ttl parse clock ds2 = clock.epochSec + TTL_CURRENT) := by
  refine ⟨by norm_num [TTL_HISTORICAL], by norm_num [TTL_CURRENT],
          fun h => ?_, fun h => ?_, fun ds2 h2 => ?_⟩
  · simp only [calculate_ttl, hp]
    rw [if_pos h]
  · simp only [calculate_ttl, hp]
    rw [if_neg (by omega)]
  · simp only [calculate_ttl, h2]

/-- Witness for C2: at now = day 10 the date is 10 days old (90-day
tier); at now = day 3 it is 3 days old (1-day tier); an unparsable
string gets the 1-day tier. -/
theorem ttl_tier_assignment_witness :
    calculate_ttl parseStub ⟨10, 1000⟩ "2024-01-01" = 1000 + TTL_HISTORICAL ∧
    calculate_ttl parseStub ⟨3, 1000⟩ "2024-01-01" = 1000 + TTL_CURRENT ∧
    calculate_ttl parseStub ⟨10, 1000⟩ "bogus" = 1000 + TTL_CURRENT := by
  have hp : parseStub "2024-01-01" = some 0 := by simp [parseStub]
  have hn : parseStub "bogus" = none := by simp [parseStub]
  refine ⟨(ttl_tier_assignment parseStub ⟨10, 1000⟩ "2024-01-01" 0 hp).2.2.1 (by norm_num),
          (ttl_tier_assignment parseStub ⟨3, 1000⟩ "2024-01-01" 0 hp).2.2.2.1 (by norm_num),
          (ttl_tier_assignment parseStub ⟨10, 1000⟩ "2024-01-01" 0 hp).2.2.2.2 "bogus" hn⟩

/-- C10: the normalized splitFactor is never 0: it equals the raw
stock-splits value rounded to 4 decimals unless that rounds to 0 (in
particular when the raw value is absent or 0), in which case it is 1. -/
theorem split_factor_nonzero (row : RawRow) :
    (transformRow row).priceData.splitFactor =
      (if roundTo4 (row.stockSplitsV.getD 0) = 0 then 1
       else roundTo4 (row.stockSplitsV.getD 0)) ∧
    (transformRow row).priceData.splitFactor ≠ 0 ∧
    ((row.stockSplitsV = none ∨ row.stockSplitsV = some 0) →
      (transformRow row).priceData.splitFactor = 1) := by
  have h0 : roundTo4 0 = 0 := by norm_num [roundTo4, roundHalfEven]
  refine ⟨by simp [transformRow], ?_, ?_⟩
  · by_cases h : roundTo4 (row.stockSplitsV.getD 0) = 0
    · simp [transformRow, h]
    · simp [transformRow, h]
  · rintro (h | h) <;> simp [transformRow, h, h0]

/-- Witness for C10 at a row with no stock-splits column. -/
theorem split_factor_nonzero_witness :
    (transformRow exampleRow).priceData.splitFactor = 1 :=
  (split_factor_nonzero exampleRow).2.2 (Or.inl rfl)

/-- C7: adjusted open/high/low are the raw values times the ratio
adjClose / close (ratio 1 when close = 0), adjVolume equals volume, and
the worked example close=100, adjClose=95, open=50 gives adjOpen 47.5. -/
theorem adjustment_derivation (row : RawRow) :
    (row.closeV.getD 0 = 0 → adjRatioOf row = 1) ∧
    (row.closeV.getD 0 ≠ 0 →
      adjRatioOf row =
        row.adjCloseV.getD (row.closeV.getD 0) / row.closeV.getD 0) ∧
    (transformRow row).priceData.adjOpen =
      roundTo4 (row.openV.getD 0 * adjRatioOf row) ∧
    (transformRow row).priceData.adjHigh =
      roundTo4 (row.highV.getD 0 * adjRatioOf row) ∧
    (transformRow row).priceData.adjLow =
      roundTo4 (row.lowV.getD 0 * adjRatioOf row) ∧
    (transformRow row).priceData.adjVolume = (transformRow row).priceData.volume ∧
    (transformRow exampleRow).priceData.adjOpen = 95/2 := by
  refine ⟨fun h => ?_, fun h => ?_, by simp [transformRow], by simp [transformRow],
          by simp [transformRow], by simp [transformRow], ?_⟩
  · simp [adjRatioOf, h]
  · simp [adjRatioOf, h]
  · norm_num [transformRow, adjRatioOf, exampleRow, roundTo4, roundHalfEven]

/-- Witness for C7 at the worked example row (close 100, adjClose 95,
open 50): the ratio guard is passed and adjOpen is 47.5. -/
theorem adjustment_derivation_witness :
    adjRatioOf exampleRow =
      exampleRow.adjCloseV.getD (exampleRow.closeV.getD 0) /
        exampleRow.closeV.getD 0 ∧
    (transformRow exampleRow).priceData.adjOpen = 95/2 :=
  ⟨(adjustment_derivation exampleRow).2.1 (by norm_num [exampleRow]),
   (adjustment_derivation exampleRow).2.2.2.2.2.2⟩

lemma handle_hit (env : PricesEnv) (startDay endDay : ℤ)
    (cached_data : List CachedItem)
    (hq : env.queryResult = Except.ok cached_data)
    (hc : cacheHitRateOf cached_data.length
        (expectedTradingDays (endDay - startDay + 1)) > 4/5 ∧ cached_data ≠ []) :
    handle_prices_request env startDay endDay =
      Except.ok { data := cachedToTiingo cached_data, cached := true,
                  cacheHitRate := cacheHitRateOf cached_data.length
                    (expectedTradingDays (endDay - startDay + 1)),
                  wroteItems := none, writeFailed := false } := by
  simp only [handle_prices_request, hq]
  rw [if_pos hc]

lemma handle_miss_ok (env : PricesEnv) (startDay endDay : ℤ)
    (cached_data : List CachedItem) (rows : List RawRow)
    (hq : env.queryResult = Except.ok cached_data)
    (hc : ¬(cacheHitRateOf cached_data.length
        (expectedTradingDays (endDay - startDay + 1)) > 4/5 ∧ cached_data ≠ []))
    (hf : env.fetchResult = Except.ok rows) :
    handle_prices_request env startDay endDay =
      Except.ok (missResult env
        (cacheHitRateOf cached_data.length
          (expectedTradingDays (endDay - startDay + 1))) rows) := by
  simp only [handle_prices_request, hq]
  rw [if_neg hc]
  simp only [hf, missResult]

lemma handle_miss_err (env : PricesEnv) (startDay endDay : ℤ)
    (cached_data : List CachedItem) (e : APIError)
    (hq : env.queryResult = Except.ok cached_data)
    (hc : ¬(cacheHitRateOf cached_data.length
        (expectedTradingDays (endDay - startDay + 1)) > 4/5 ∧ cached_data ≠ []))
    (hf : env.fetchResult = Except.error e) :
    handle_prices_request env startDay endDay = Except.error e := by
  simp only [handle_prices_request, hq]
  rw [if_neg hc]
  simp only [hf]

/-- C1: for a valid range, the evaluator computes expectedCount =
max(1, floor(((end - start) + 1) * 5/7)) and ratio = actualCount /
expectedCount (also reported as cacheHitRate), and serves from cache iff
ratio > 0.8 and actualCount > 0; actualCount = 0 is always
insufficient. -/
theorem coverage_decision (env : PricesEnv) (startDay endDay : ℤ)
    (cached_data : List CachedItem)
    (hq : env.queryResult = Except.ok cached_data)
    (hrange : startDay ≤ endDay) :
    expectedTradingDays ((endDay - startDay) + 1) =
      max 1 ⌊((((endDay - startDay) + 1 : ℤ) : ℚ) * 5) / 7⌋ ∧
    ((∃ r, handle_prices_request env startDay endDay = Except.ok r ∧
        r.cached = true) ↔
      ((cached_data.length : ℚ) /
          ((expectedTradingDays ((endDay - startDay) + 1) : ℤ) : ℚ) > 4/5 ∧
        0 < cached_data.length)) ∧
    (∀ r, handle_prices_request env startDay endDay = Except.ok r →
      r.cacheHitRate = (cached_data.length : ℚ) /
        ((expectedTradingDays ((endDay - startDay) + 1) : ℤ) : ℚ)) ∧
    (cached_data.length = 0 →
      ¬∃ r, handle_prices_request env startDay endDay = Except.ok r ∧
        r.cached = true) := by
  have hpos := expectedTradingDays_pos (endDay - startDay + 1)
  have hrate : cacheHitRateOf cached_data.length
      (expectedTradingDays (endDay - startDay + 1)) =
      (cached_data.length : ℚ) /
        ((expectedTradingDays (endDay - startDay + 1) : ℤ) : ℚ) := by
    unfold cacheHitRateOf
    rw [if_pos hpos]
  have hiff : (∃ r, handle_prices_request env startDay endDay = Except.ok r ∧
      r.cached = true) ↔
      ((cached_data.length : ℚ) /
          ((expectedTradingDays ((endDay - startDay) + 1) : ℤ) : ℚ) > 4/5 ∧
        0 < cached_data.length) := by
    constructor
    · rintro ⟨r, hr, hcb⟩
      by_cases hc : cacheHitRateOf cached_data.length
          (expectedTradingDays (endDay - startDay + 1)) > 4/5 ∧ cached_data ≠ []
      · exact ⟨hrate ▸ hc.1, List.length_pos.mpr hc.2⟩
      · exfalso
        cases hf : env.fetchResult with
        | ok rows =>
            rw [handle_miss_ok env startDay endDay cached_data rows hq hc hf] at hr
            simp only [Except.ok.injEq] at hr
            rw [← hr] at hcb
            simp [missResult] at hcb
        | error e =>
            rw [handle_miss_err env startDay endDay cached_data e hq hc hf] at hr
            simp at hr
    · rintro ⟨hratio, hlen⟩
      have hc : cacheHitRateOf cached_data.length
          (expectedTradingDays (endDay - startDay + 1)) > 4/5 ∧ cached_data ≠ [] :=
        ⟨by rw [hrate]; exact hratio, List.length_pos.mp hlen⟩
      exact ⟨_, handle_hit env startDay endDay cached_data hq hc, rfl⟩
  refine ⟨expectedTradingDays_eq_floor (by omega), hiff, ?_, fun hlen0 hex => ?_⟩
  · intro r hr
    by_cases hc : cacheHitRateOf cached_data.length
        (expectedTradingDays (endDay - startDay + 1)) > 4/5 ∧ cached_data ≠ []
    · rw [handle_hit env startDay endDay cached_data hq hc] at hr
      simp only [Except.ok.injEq] at hr
      rw [← hr, ← hrate]
    · cases hf : env.fetchResult with
      | ok rows =>
          rw [handle_miss_ok env startDay endDay cached_data rows hq hc hf] at hr
          simp only [Except.ok.injEq] at hr
          rw [← hr, ← hrate]
          rfl
      | error e =>
          rw [handle_miss_err env startDay endDay cached_data e hq hc hf] at hr
          simp at hr
  · have h2 := (hiff.mp hex).2
    omega

/-- Witness for C1: 5 calendar days, expected 3, ratio 5/3 > 0.8, served
from cache. -/
theorem coverage_decision_witness :
    ∃ r, handle_prices_request envHit 0 4 = Except.ok r ∧ r.cached = true := by
  apply ((coverage_decision envHit 0 4 items5 rfl (by norm_num)).2.1).mpr
  constructor
  · rw [show expectedTradingDays ((4 : ℤ) - 0 + 1) = 3 from by decide]
    norm_num [items5]
  · norm_num [items5]

/-- C3: on insufficient coverage with a successful fetch, a failing cache
write never changes the returned data nor fails the request: the caller
still gets exactly the freshly normalized records with cached = false,
and the response is identical whatever the write result. -/
theorem write_failure_best_effort (env : PricesEnv) (startDay endDay : ℤ)
    (cached_data : List CachedItem) (rows : List RawRow)
    (hq : env.queryResult = Except.ok cached_data)
    (hf : env.fetchResult = Except.ok rows)
    (hins : ¬(cacheHitRateOf cached_data.length
        (expectedTradingDays (endDay - startDay + 1)) > 4/5 ∧ cached_data ≠ [])) :
    (∀ e, ∃ r, handle_prices_request { env with writeResult := Except.error e }
        startDay endDay = Except.ok r ∧
      r.data = transform_history_to_tiingo rows ∧ r.cached = false ∧
      (transform_history_to_tiingo rows ≠ [] → r.writeFailed = true)) ∧
    (∀ w w', Except.map responseView
        (handle_prices_request { env with writeResult := w } startDay endDay) =
      Except.map responseView
        (handle_prices_request { env with writeResult := w' } startDay endDay)) := by
  constructor
  · intro e
    refine ⟨_, handle_miss_ok { env with writeResult := Except.error e }
      startDay endDay cached_data rows hq hins hf, rfl, rfl, fun h => ?_⟩
    simp [missResult, h]
  · intro w w'
    rw [handle_miss_ok { env with writeResult := w }
          startDay endDay cached_data rows hq hins hf,
        handle_miss_ok { env with writeResult := w' }
          startDay endDay cached_data rows hq hins hf]
    rfl

/-- Witness for C3: the write raises, the caller still gets the fetched
row with cached = false. -/
theorem write_failure_best_effort_witness :
    ∃ r, handle_prices_request { envMiss with writeResult := Except.error "boom" }
        0 4 = Except.ok r ∧
      r.data = transform_history_to_tiingo [exampleRow] ∧ r.cached = false ∧
      r.writeFailed = true := by
  obtain ⟨r, hr, hdata, hcached, hwf⟩ :=
    (write_failure_best_effort envMiss 0 4 [] [exampleRow] rfl rfl (by simp)).1 "boom"
  exact ⟨r, hr, hdata, hcached, hwf (by simp [transform_history_to_tiingo])⟩

/-- C4: a StoreError during the coverage-check read never surfaces: the
request falls back to the upstream fetch and succeeds with the fetched
data, cached = false, and no write-back attempt. -/
theorem store_read_error_fallback (env : PricesEnv) (startDay endDay : ℤ)
    (rows : List RawRow) (msg : String)
    (hq : env.queryResult = Except.error msg)
    (hf : env.fetchResult = Except.ok rows) :
    handle_prices_request env startDay endDay =
      Except.ok { data := transform_history_to_tiingo rows, cached := false,
                  cacheHitRate := 0, wroteItems := none, writeFailed := false } := by
  simp only [handle_prices_request, hq, hf]

/-- Witness for C4 on a concrete failing store. -/
theorem store_read_error_fallback_witness :
    handle_prices_request envReadErr 0 4 =
      Except.ok { data := transform_history_to_tiingo [exampleRow], cached := false,
                  cacheHitRate := 0, wroteItems := none, writeFailed := false } :=
  store_read_error_fallback envReadErr 0 4 [exampleRow] "store down" rfl rfl

lemma filter_not_filter {α : Type} (p : α → Bool) (l : List α) :
    (l.filter (fun s => !(p s))).filter p = [] := by
  induction l with
  | nil => rfl
  | cons a l ih =>
      by_cases h : p a
      · simp [List.filter_cons, h, ih]
      · simp [List.filter_cons, h, ih]

lemma keyCount_storePut (store : List StoreItem) (it : StoreItem) :
    keyCount (storePut store it) it.ticker it.date = 1 := by
  unfold keyCount storePut
  simp [List.filter_cons, filter_not_filter]

/-- C8: the store holds at most one record per (uppercased ticker, date)
key: writing the same item twice — through put_stock or through
batch_put_stocks — leaves exactly one record, the one whose TTL was
recomputed at the second write; and the TTL genuinely can differ between
two write instants. -/
theorem put_overwrite_idempotent (parse : String → Option ℤ) (c1 c2 : Clock)
    (store : List StoreItem) (item : CachePutItem) :
    keyCount (put_stock parse c2 (put_stock parse c1 store item) item)
      item.ticker.toUpper item.date = 1 ∧
    keyCount (batch_put_stocks parse c2
        (batch_put_stocks parse c1 store [item]) [item])
      item.ticker.toUpper item.date = 1 ∧
    (put_stock parse c2 (put_stock parse c1 store item) item).find?
        (fun s => s.ticker = item.ticker.toUpper && s.date = item.date) =
      some (buildCacheItem parse c2 item) ∧
    (∃ cA cB : Clock, ∃ p, ∃ ds,
      calculate_ttl p cA ds ≠ calculate_ttl p cB ds) := by
  refine ⟨keyCount_storePut _ (buildCacheItem parse c2 item),
          keyCount_storePut _ (buildCacheItem parse c2 item), ?_, ?_⟩
  · unfold put_stock storePut
    rw [List.find?_cons_of_pos _ (by simp [buildCacheItem])]
  · refine ⟨⟨10, 0⟩, ⟨10, 1⟩, parseStub, "2024-01-01", ?_⟩
    norm_num [calculate_ttl, parseStub, TTL_HISTORICAL, TTL_CURRENT]

/-- C5: in a batch, the outcomes partition the symbols: with the 2nd of 3
symbols failing, symbols 1 and 3 keep their records, symbol 2 gets the
error entry, successCount = 2 and errorCount = 1; and symbols 1 and 3
keep their results under any outcome for symbol 2. -/
theorem batch_isolation (f : String → FetchOutcome) (t1 t2 t3 : String)
    (d1 d3 : List PriceRecord) (c1 c3 : Bool) (m : String)
    (hnd : [t1, t2, t3].Nodup)
    (h1 : f t1 = FetchOutcome.ok d1 c1) (h2 : f t2 = FetchOutcome.err m)
    (h3 : f t3 = FetchOutcome.ok d3 c3) :
    (buildBatch f [t1, t2, t3]).results = [(t1, d1), (t3, d3)] ∧
    (buildBatch f [t1, t2, t3]).errors = [(t2, m)] ∧
    (buildBatch f [t1, t2, t3]).cachedFlags = [(t1, c1), (t3, c3)] ∧
    (∀ body, validateBatch body = Except.ok [t1, t2, t3] →
      handle_batch_stocks_request f body =
        BatchHTTP.okResp (buildBatch f [t1, t2, t3]) 2 1) ∧
    (∀ g : String → FetchOutcome, g t1 = FetchOutcome.ok d1 c1 →
      g t3 = FetchOutcome.ok d3 c3 →
        (buildBatch g [t1, t2, t3]).results.lookup t1 = some d1 ∧
        (buildBatch g [t1, t2, t3]).results.lookup t3 = some d3) := by
  have h12 : t1 ≠ t2 := by simp [List.nodup_cons] at hnd; tauto
  have h13 : t1 ≠ t3 := by simp [List.nodup_cons] at hnd; tauto
  have h23 : t2 ≠ t3 := by simp [List.nodup_cons] at hnd; tauto
  have h21 := h12.symm
  have h31 := h13.symm
  have h32 := h23.symm
  have b11 : (t1 == t1) = true := by simp
  have b31 : (t3 == t1) = false := by simp [h31]
  have b32 : (t3 == t2) = false := by simp [h32]
  have hb : buildBatch f [t1, t2, t3] =
      ⟨[(t1, d1), (t3, d3)], [(t2, m)], [(t1, c1), (t3, c3)]⟩ := by
    simp [buildBatch, h1, h2, h3, dictInsert, h12, h13, h23, h21, h31, h32]
  refine ⟨by rw [hb], by rw [hb], by rw [hb], ?_, ?_⟩
  · intro body hv
    simp [handle_batch_stocks_request, hv, hb]
  · intro g hg1 hg3
    cases hg2 : g t2 with
    | ok dd cc =>
        constructor <;>
          simp [buildBatch, hg1, hg2, hg3, dictInsert, List.lookup,
                h12, h13, h23, h21, h31, h32, b11, b31, b32]
    | err mm =>
        constructor <;>
          simp [buildBatch, hg1, hg2, hg3, dictInsert, List.lookup,
                h12, h13, h23, h21, h31, h32, b11, b31, b32]

/-- Witness for C5 at AAPL, GOOGL, MSFT with GOOGL failing. -/
theorem batch_isolation_witness :
    (buildBatch fStub ["AAPL", "GOOGL", "MSFT"]).results =
      [("AAPL", []), ("MSFT", [])] ∧
    (buildBatch fStub ["AAPL", "GOOGL", "MSFT"]).errors =
      [("GOOGL", "not found")] := by
  have h := batch_isolation fStub "AAPL" "GOOGL" "MSFT" [] [] false false
    "not found" (by decide) rfl rfl rfl
  exact ⟨h.1, h.2.1⟩

lemma validateTickers_err {l : List String}
    (h : ∃ t ∈ l, pyMatchTicker t.toUpper = false) :
    ∃ m, validateTickers l = Except.error m := by
  induction l with
  | nil => simp at h
  | cons t ts ih =>
      obtain ⟨u, hu, hbad⟩ := h
      rcases List.mem_cons.mp hu with rfl | hmem
      · exact ⟨"Invalid ticker format: " ++ u.toUpper ++
          ". Must contain only letters, numbers, dots, and hyphens.",
          by simp [validateTickers, hbad]⟩
      · by_cases hp : pyMatchTicker t.toUpper
        · obtain ⟨m, hm⟩ := ih ⟨u, hmem, hbad⟩
          exact ⟨m, by simp [validateTickers, hp, hm]⟩
        · exact ⟨"Invalid ticker format: " ++ t.toUpper ++
            ". Must contain only letters, numbers, dots, and hyphens.",
            by simp [validateTickers, hp]⟩

lemma validateDates_err_range {sd ed : String}
    (hed : ed ≠ "") (hlt : strLtChars ed.data sd.data = true) :
    ∃ m, validateDates (some sd) (some ed) = Except.error m := by
  have hee : ed.isEmpty = false := by
    rw [Bool.eq_false_iff]
    intro hc
    exact hed ((String.isEmpty_iff ed).mp hc)
  unfold validateDates
  by_cases h1 : sd.isEmpty
  · exact ⟨"Missing required field: startDate", by simp [h1]⟩
  · by_cases h2 : pyMatchDate sd
    · by_cases h3 : pyMatchDate ed
      · exact ⟨"Invalid date range. startDate must be before or equal to endDate.",
          by simp [h1, h2, h3, hee, hlt]⟩
      · exact ⟨"Invalid endDate format. Must be YYYY-MM-DD.",
          by simp [h1, h2, h3, hee]⟩
    · exact ⟨"Invalid startDate format. Must be YYYY-MM-DD.",
        by simp [h1, h2]⟩

lemma validateBatch_err (body : BatchBody)
    (h : body.tickers = [] ∨ MAX_TICKERS < body.tickers.length ∨
         (∃ t ∈ body.tickers, pyMatchTicker t.toUpper = false) ∨
         (∃ sd ed, body.startDate = some sd ∧ body.endDate = some ed ∧
            ed ≠ "" ∧ strLtChars ed.data sd.data = true)) :
    ∃ m, validateBatch body = Except.error m := by
  unfold validateBatch
  by_cases he : body.tickers.isEmpty
  · exact ⟨"Missing required field: tickers", by simp [he]⟩
  · by_cases hl : body.tickers.length > MAX_TICKERS
    · exact ⟨"Too many tickers. Maximum is 10.", by simp [he, hl]⟩
    · cases hvt : validateTickers body.tickers with
      | error m => exact ⟨m, by simp [he, hl, hvt]⟩
      | ok norm =>
          rcases h with h | h | h | h
          · exact absurd (List.isEmpty_iff.mpr h) he
          · exact absurd h hl
          · obtain ⟨m, hm⟩ := validateTickers_err h
            rw [hvt] at hm
            simp at hm
          · obtain ⟨sd, ed, hsd, hed, hne, hlt⟩ := h
            obtain ⟨m, hm⟩ := validateDates_err_range hne hlt
            exact ⟨m, by simp [he, hl, hvt, hsd, hed, hm]⟩

/-- C6: a batch body with an empty ticker list, more than 10 tickers, a
ticker whose normalized form misses the symbol pattern, or a start date
lexicographically greater than the end date, is rejected with a 400
validation error, identically for every fetch function — so before any
per-symbol fetch is dispatched. -/
theorem batch_validation_rejects (body : BatchBody)
    (h : body.tickers = [] ∨ MAX_TICKERS < body.tickers.length ∨
         (∃ t ∈ body.tickers, pyMatchTicker t.toUpper = false) ∨
         (∃ sd ed, body.startDate = some sd ∧ body.endDate = some ed ∧
            ed ≠ "" ∧ strLtChars ed.data sd.data = true)) :
    (∃ msg, ∀ f, handle_batch_stocks_request f body =
      BatchHTTP.errorResp msg 400) ∧
    (∀ f g, handle_batch_stocks_request f body =
      handle_batch_stocks_request g body) := by
  obtain ⟨m, hm⟩ := validateBatch_err body h
  exact ⟨⟨m, fun f => by simp [handle_batch_stocks_request, hm]⟩,
         fun f g => by simp [handle_batch_stocks_request, hm]⟩

/-- Witness for C6: 11 symbols are rejected with a 400 before any fetch. -/
theorem batch_validation_rejects_witness :
    ∃ msg, handle_batch_stocks_request fStub body11 =
      BatchHTTP.errorResp msg 400 := by
  obtain ⟨msg, hm⟩ := (batch_validation_rejects body11
    (Or.inr (Or.inl (by decide)))).1
  exact ⟨msg, hm fStub⟩

end NewsInvestor
